import Mathlib

/-!
Shallow embedding of `src/app.py` (a small FastAPI demonstration service)
and proofs of the behavioural claims about it.

The embedding models each route handler and the two registered exception
handlers as pure Lean functions.  The framework glue that the handlers rely
on (response classes, the default HTTP-exception handler, pydantic
validation of the one request schema) is modelled explicitly, faithful to
the libraries the source imports.  Outbound HTTP traffic performed with
httpx is modelled by an explicit network oracle passed to the dispatcher.
-/

namespace HowToLog

/-- A JSON value, as carried by request and response bodies. -/
inductive Json where
  | null
  | bool (b : Bool)
  | num (n : Int)
  | str (s : String)
  | arr (elems : List Json)
  | obj (fields : List (String × Json))

/-- The body of an HTTP response: JSON, plain text, or empty. -/
inductive ResponseBody where
  | jsonBody (j : Json)
  | textBody (s : String)
  | emptyBody

/-- An HTTP response: status code, body and headers. -/
structure Response where
  status : Nat
  body : ResponseBody
  headers : List (String × String)

/-- One entry of `RequestValidationError.errors()` / a pydantic line error:
location, human-readable message, and the error type tag. -/
structure ValidationErrorItem where
  loc : List String
  msg : String
  errType : String
  deriving DecidableEq, Repr

/-- The exceptions that can escape a handler in `src/app.py`:
pydantic/FastAPI request-validation errors, Starlette HTTP exceptions
(FastAPI's `HTTPException` is a subclass), the generic `Exception` raised by
the `/error` route, and the httpx transport errors. -/
inductive Exc where
  | requestValidationError (errors : List ValidationErrorItem)
  | starletteHTTPException (statusCode : Nat) (detail : String)
  | generic (msg : String)
  | httpxTimeout (msg : String)
  | httpxConnectError (msg : String)
  deriving DecidableEq, Repr

/-- Log levels used by the source (`logger.info` and `logger.warning`). -/
inductive LogLevel where
  | info
  | warning
  deriving DecidableEq, Repr

/-- One emitted log record: level, formatted message, and the `exc_info`
argument (`none` models `exc_info=False` or an absent argument, `some e`
models `exc_info=e`). -/
structure LogEvent where
  level : LogLevel
  message : String
  excInfo : Option Exc
  deriving DecidableEq, Repr

/-- An outbound HTTP call issued through httpx, with the timeout (seconds)
that the source passes. -/
structure OutboundCall where
  method : String
  url : String
  timeout : Nat
  deriving DecidableEq, Repr

/-- An upstream response as httpx would return it on success. -/
structure HttpxResponse where
  status : Nat
  body : String
  headers : List (String × String)
  deriving DecidableEq, Repr

/-- The network oracle: what the outside world answers to an outbound GET of
a given url with a given timeout — either an upstream response or a raised
transport exception. -/
def Net : Type := String → Nat → Except Exc HttpxResponse

/-- What a Python route handler can do when invoked: return `True`
(`/error-validation-error`), return `None` implicitly (the httpx routes),
return a response object, or raise an exception. -/
inductive HandlerOutcome where
  | retBool (b : Bool)
  | retNone
  | retResponse (r : Response)
  | raised (e : Exc)

/-- The observable effect of one handler invocation: its outcome, the log
records it emitted, and the outbound HTTP calls it issued. -/
structure HandlerResult where
  outcome : HandlerOutcome
  logs : List LogEvent
  calls : List OutboundCall

/-- Modelled from Starlette: `RedirectResponse(url=...)` has default status
code 307, an empty body, and a `location` header carrying the url. -/
def RedirectResponse (url : String) : Response :=
  { status := 307, body := .emptyBody, headers := [("location", url)] }

/-- Modelled from Starlette: `JSONResponse(content)` has default status
code 200 and a JSON body. -/
def JSONResponse (content : Json) : Response :=
  { status := 200, body := .jsonBody content, headers := [] }

/-- Modelled from pydantic: the string rendering `str(ValidationError)` used
by the validation handler — the error count and title on the first line,
then, per error, its dotted location and an indented message with the error
type tag.  (The `input_value`/`url` details of pydantic's rendering are
abbreviated away; no claim depends on them.) -/
def renderValidationError (title : String) (errors : List ValidationErrorItem) : String :=
  toString errors.length ++ " validation error" ++
    (if errors.length == 1 then "" else "s") ++ " for " ++ title ++
    String.join (errors.map fun e =>
      "\n" ++ String.intercalate "." e.loc ++ "\n  " ++ e.msg ++
        " [type=" ++ e.errType ++ "]")

/-- Modelled from Starlette: `str(HTTPException(status_code, detail))` is
`"{status_code}: {detail}"`. -/
def strHTTPException (statusCode : Nat) (detail : String) : String :=
  toString statusCode ++ ": " ++ detail

/-- Modelled from FastAPI utils: status codes below 200 and 204/205/304
carry no response body. -/
def is_body_allowed_for_status_code (status : Nat) : Bool :=
  !(status < 200 || status == 204 || status == 205 || status == 304)

/-- Modelled from FastAPI's default `http_exception_handler`: a JSON
response `{"detail": exc.detail}` with the exception's status code (or an
empty response when the status code admits no body). -/
def http_exception_handler (statusCode : Nat) (detail : String) : Response :=
  if is_body_allowed_for_status_code statusCode then
    { status := statusCode,
      body := .jsonBody (.obj [("detail", .str detail)]), headers := [] }
  else
    { status := statusCode, body := .emptyBody, headers := [] }

/-- Embeds `validation_exception_handler` (src/app.py lines 19-27): rebuild
the pydantic `ValidationError` titled with the request path, stringify it
once, log that string as a warning with `exc_info=False`, and return it as
a plain-text 422 response. -/
def validation_exception_handler (path : String) (errors : List ValidationErrorItem) :
    Response × List LogEvent :=
  let error_str := renderValidationError path errors
  ({ status := 422, body := .textBody error_str, headers := [] },
   [{ level := .warning, message := error_str, excInfo := none }])

/-- Embeds `custom_http_exception_handler` (src/app.py lines 30-33): log
the exception as a warning with `exc_info=exc`, then return the framework's
default HTTP-exception response unchanged. -/
def custom_http_exception_handler (statusCode : Nat) (detail : String) :
    Response × List LogEvent :=
  (http_exception_handler statusCode detail,
   [{ level := .warning, message := strHTTPException statusCode detail,
      excInfo := some (.starletteHTTPException statusCode detail) }])

/-- Embeds `redirect_to_docs` (src/app.py lines 36-38): return
`RedirectResponse(url="/docs")`. -/
def redirect_to_docs : HandlerResult :=
  { outcome := .retResponse (RedirectResponse "/docs"), logs := [], calls := [] }

/-- Embeds `clickable_log` (src/app.py lines 41-46): log one informational
message, return `JSONResponse({"message": "Clickable log!"})`. -/
def clickable_log : HandlerResult :=
  { outcome := .retResponse (JSONResponse (.obj [("message", .str "Clickable log!")])),
    logs := [{ level := .info,
               message := "This will show with source code location and timing",
               excInfo := none }],
    calls := [] }

/-- Embeds `error` (src/app.py lines 49-51): raise a generic `Exception`. -/
def error : HandlerResult :=
  { outcome := .raised (.generic "This is a test error"), logs := [], calls := [] }

/-- Embeds the request schema `SomeData` (src/app.py lines 54-55): one
integer field `a` constrained by `Field(..., ge=10)`. -/
structure SomeData where
  a : Int
  deriving DecidableEq, Repr

/-- The pydantic line error produced when field `a` is below 10. -/
def geValidationItem : ValidationErrorItem :=
  { loc := ["body", "a"], msg := "Input should be greater than or equal to 10",
    errType := "greater_than_equal" }

/-- The pydantic line error produced when field `a` is not an integer. -/
def intTypeItem : ValidationErrorItem :=
  { loc := ["body", "a"], msg := "Input should be a valid integer",
    errType := "int_type" }

/-- The pydantic line error produced when field `a` is absent. -/
def missingFieldItem : ValidationErrorItem :=
  { loc := ["body", "a"], msg := "Field required", errType := "missing" }

/-- The pydantic line error produced when the body is not a JSON object. -/
def notAnObjectItem : ValidationErrorItem :=
  { loc := ["body"],
    msg := "Input should be a valid dictionary or object to extract fields from",
    errType := "model_attributes_type" }

/-- The FastAPI line error produced when a required body is absent. -/
def missingBodyItem : ValidationErrorItem :=
  { loc := ["body"], msg := "Field required", errType := "missing" }

/-- Modelled from pydantic validation of `SomeData` against a JSON body:
the body must be an object whose field `a` is an integer at least 10. -/
def validateSomeData (body : Json) : Except (List ValidationErrorItem) SomeData :=
  match body with
  | .obj fields =>
      match fields.lookup "a" with
      | some (.num n) =>
          if 10 ≤ n then .ok { a := n } else .error [geValidationItem]
      | some _ => .error [intTypeItem]
      | none => .error [missingFieldItem]
  | _ => .error [notAnObjectItem]

/-- Embeds `error_validation_error` (src/app.py lines 58-60): given
validated data, return `True`. -/
def error_validation_error (data : SomeData) : HandlerResult :=
  { outcome := .retBool true, logs := [], calls := [] }

/-- Embeds `httpx.get(url, timeout=t)`: one recorded outbound GET, whose
result the network oracle decides. -/
def httpx_get (net : Net) (url : String) (timeout : Nat) :
    Except Exc HttpxResponse × List OutboundCall :=
  (net url timeout, [{ method := "GET", url := url, timeout := timeout }])

/-- Embeds `error_httpx` (src/app.py lines 63-65): perform
`httpx.get("http://12312312", timeout=1)`, discard the result, return
`None`; a raised transport exception propagates untouched. -/
def error_httpx (net : Net) : HandlerResult :=
  match httpx_get net "http://12312312" 1 with
  | (.error e, calls) => { outcome := .raised e, logs := [], calls := calls }
  | (.ok _, calls) => { outcome := .retNone, logs := [], calls := calls }

/-- Embeds `error_httpx_connection_refused` (src/app.py lines 68-70):
perform `httpx.get("http://localhost:11111", timeout=1)`, discard the
result, return `None`; a raised transport exception propagates untouched. -/
def error_httpx_connection_refused (net : Net) : HandlerResult :=
  match httpx_get net "http://localhost:11111" 1 with
  | (.error e, calls) => { outcome := .raised e, logs := [], calls := calls }
  | (.ok _, calls) => { outcome := .retNone, logs := [], calls := calls }

/-- Embeds `error_404` (src/app.py lines 73-75): raise
`HTTPException(status_code=404, detail="Not Found")`. -/
def error_404 : HandlerResult :=
  { outcome := .raised (.starletteHTTPException 404 "Not Found"), logs := [], calls := [] }

/-- An inbound HTTP request: method, path, and an optional JSON body. -/
structure HRequest where
  method : String
  path : String
  body : Option Json

/-- The route table of `app`, including FastAPI's validation of the
`/error-validation-error` body against `SomeData` before the handler runs;
a failed validation raises `RequestValidationError` with the line errors. -/
def routeHandler (net : Net) (req : HRequest) : Option HandlerResult :=
  match req.method, req.path with
  | "GET", "/" => some redirect_to_docs
  | "GET", "/clickable-log" => some clickable_log
  | "GET", "/error" => some error
  | "POST", "/error-validation-error" =>
      match req.body with
      | none =>
          some { outcome := .raised (.requestValidationError [missingBodyItem]),
                 logs := [], calls := [] }
      | some j =>
          match validateSomeData j with
          | .ok d => some (error_validation_error d)
          | .error errs =>
              some { outcome := .raised (.requestValidationError errs),
                     logs := [], calls := [] }
  | "GET", "/error-httpx-timeout" => some (error_httpx net)
  | "GET", "/error-httpx-connection-refused" => some (error_httpx_connection_refused net)
  | "GET", "/error-404" => some error_404
  | _, _ => none

/-- What the service observably does for one request: the response sent,
the log records emitted, and the outbound calls issued. -/
structure AppResult where
  response : Response
  logs : List LogEvent
  calls : List OutboundCall

/-- Modelled from Starlette's `ServerErrorMiddleware`: an exception caught
by no registered handler is rendered as a plain-text 500. -/
def internalServerErrorResponse : Response :=
  { status := 500, body := .textBody "Internal Server Error", headers := [] }

/-- The full dispatch of `app`: route the request, serialize a normal
return value as FastAPI does (`True` to JSON `true`, `None` to JSON
`null`), and feed a raised exception to the matching registered exception
handler (`RequestValidationError` and `StarletteHTTPException` have custom
handlers in src/app.py; everything else falls to the framework 500). -/
def handleApp (net : Net) (req : HRequest) : Option AppResult :=
  match routeHandler net req with
  | none => none
  | some hr =>
      match hr.outcome with
      | .retResponse r => some { response := r, logs := hr.logs, calls := hr.calls }
      | .retBool b =>
          some { response := JSONResponse (.bool b), logs := hr.logs, calls := hr.calls }
      | .retNone =>
          some { response := JSONResponse .null, logs := hr.logs, calls := hr.calls }
      | .raised (.requestValidationError errs) =>
          let rl := validation_exception_handler req.path errs
          some { response := rl.1, logs := hr.logs ++ rl.2, calls := hr.calls }
      | .raised (.starletteHTTPException sc d) =>
          let rl := custom_http_exception_handler sc d
          some { response := rl.1, logs := hr.logs ++ rl.2, calls := hr.calls }
      | .raised _ =>
          some { response := internalServerErrorResponse,
                 logs := hr.logs, calls := hr.calls }

/-- `pat` is an initial segment of `s` (on character lists). -/
def startsWithList (pat s : List Char) : Bool :=
  match pat, s with
  | [], _ => true
  | _ :: _, [] => false
  | c :: cs, d :: ds => c == d && startsWithList cs ds

/-- `pat` occurs contiguously somewhere in `s` (on character lists). -/
def occursInList (pat s : List Char) : Bool :=
  match s with
  | [] => startsWithList pat []
  | _ :: tail => startsWithList pat s || occursInList pat tail

/-- `pat` occurs as a substring of `s`. -/
def containsSubstr (s pat : String) : Bool :=
  occursInList pat.toList s.toList

/-- A network oracle on which every outbound call times out. -/
def netAllTimeout : Net := fun _ _ => .error (.httpxTimeout "timed out")

/-- A network oracle on which every outbound call is refused. -/
def netAllRefused : Net := fun _ _ => .error (.httpxConnectError "connection refused")

/-- A network oracle on which every outbound call succeeds. -/
def netAllOk : Net := fun _ _ => .ok { status := 200, body := "hello", headers := [] }

end HowToLog

/-! ## Claims -/

/-- C1, counterexample: on a GET request to `/`, the status of the response
is not 302 — the handler returns `RedirectResponse(url="/docs")`, whose
Starlette default status code is 307. -/
theorem root_redirect_status_is_not_302 :
    (HowToLog.handleApp HowToLog.netAllTimeout
        { method := "GET", path := "/", body := none }).map
      (fun r => r.response.status) ≠ some 302 := by
  decide

/-- C1 (amended): for every GET request to `/`, the handler returns an HTTP
redirect response with status code 307 whose target location is `/docs`,
emitting no logs and no outbound calls. -/
theorem root_redirects_to_docs_with_307 (net : HowToLog.Net) (b : Option HowToLog.Json) :
    HowToLog.handleApp net { method := "GET", path := "/", body := b } =
      some { response := { status := 307, body := .emptyBody,
                           headers := [("location", "/docs")] },
             logs := [], calls := [] } := rfl

/-- C2: for every POST request to `/error-validation-error` whose JSON body
is an object whose field `a` is an integer at least 10, validation succeeds
and the handler returns status 200 with JSON body `true`. -/
theorem valid_body_returns_200_true (net : HowToLog.Net)
    (fields : List (String × HowToLog.Json)) (n : Int)
    (ha : fields.lookup "a" = some (.num n)) (hn : 10 ≤ n) :
    HowToLog.handleApp net
      { method := "POST", path := "/error-validation-error",
        body := some (.obj fields) } =
      some { response := { status := 200, body := .jsonBody (.bool true),
                           headers := [] },
             logs := [], calls := [] } := by
  simp [HowToLog.handleApp, HowToLog.routeHandler, HowToLog.validateSomeData, ha, hn,
        HowToLog.error_validation_error, HowToLog.JSONResponse]

/-- Witness for C2 at the concrete body from the spec. -/
theorem valid_body_returns_200_true_witness :
    HowToLog.handleApp HowToLog.netAllTimeout
      { method := "POST", path := "/error-validation-error",
        body := some (.obj [("a", .num 10)]) } =
      some { response := { status := 200, body := .jsonBody (.bool true),
                           headers := [] },
             logs := [], calls := [] } :=
  valid_body_returns_200_true HowToLog.netAllTimeout
    [("a", .num 10)] 10 rfl (by decide)

/-- C3: for every POST request to `/error-validation-error` whose body fails
schema validation, the validation handler intercepts the failure and the
response is a plain-text 422 whose body is the rendered validation error —
in particular, when field `a` is an integer below 10, the body contains the
message about the `ge=10` constraint — and no 200 response is produced. -/
theorem invalid_body_returns_422_plaintext (net : HowToLog.Net) (j : HowToLog.Json)
    (errs : List HowToLog.ValidationErrorItem)
    (hv : HowToLog.validateSomeData j = .error errs) :
    (HowToLog.handleApp net
        { method := "POST", path := "/error-validation-error", body := some j } =
      some { response :=
               { status := 422,
                 body := .textBody
                   (HowToLog.renderValidationError "/error-validation-error" errs),
                 headers := [] },
             logs := [{ level := .warning,
                        message :=
                          HowToLog.renderValidationError "/error-validation-error" errs,
                        excInfo := none }],
             calls := [] }) ∧
    HowToLog.containsSubstr
        (HowToLog.renderValidationError "/error-validation-error"
          [HowToLog.geValidationItem])
        "Input should be greater than or equal to 10" = true ∧
    (422 : Nat) ≠ 200 := by
  refine ⟨?_, by decide, by decide⟩
  simp [HowToLog.handleApp, HowToLog.routeHandler, hv,
        HowToLog.validation_exception_handler]

/-- Witness for C3 at the concrete body from the spec, whose validation
fails with the `ge=10` line error. -/
theorem invalid_body_returns_422_plaintext_witness :
    (HowToLog.handleApp HowToLog.netAllTimeout
        { method := "POST", path := "/error-validation-error",
          body := some (.obj [("a", .num 5)]) } =
      some { response :=
               { status := 422,
                 body := .textBody
                   (HowToLog.renderValidationError "/error-validation-error"
                     [HowToLog.geValidationItem]),
                 headers := [] },
             logs := [{ level := .warning,
                        message :=
                          HowToLog.renderValidationError "/error-validation-error"
                            [HowToLog.geValidationItem],
                        excInfo := none }],
             calls := [] }) ∧
    HowToLog.containsSubstr
        (HowToLog.renderValidationError "/error-validation-error"
          [HowToLog.geValidationItem])
        "Input should be greater than or equal to 10" = true ∧
    (422 : Nat) ≠ 200 :=
  invalid_body_returns_422_plaintext HowToLog.netAllTimeout
    (.obj [("a", .num 5)]) [HowToLog.geValidationItem] rfl

/-- C4: for every request-validation failure, the validation exception
handler emits exactly one log record, at warning level with exception info
disabled, and its message is exactly the plain-text body of the 422
response returned. -/
theorem validation_handler_log_matches_body (path : String)
    (errs : List HowToLog.ValidationErrorItem) :
    HowToLog.validation_exception_handler path errs =
      ({ status := 422,
         body := .textBody (HowToLog.renderValidationError path errs),
         headers := [] },
       [{ level := .warning,
          message := HowToLog.renderValidationError path errs,
          excInfo := none }]) := rfl

/-- C5: for every Starlette HTTP exception, the custom HTTP exception
handler emits exactly one log record, at warning level with the exception
attached as exception info and the exception's string rendering as message,
and returns exactly the response of the framework's default HTTP exception
handler for that exception (same status code and body). -/
theorem http_exc_handler_logs_and_delegates (sc : Nat) (detail : String) :
    (HowToLog.custom_http_exception_handler sc detail).1 =
      HowToLog.http_exception_handler sc detail ∧
    (HowToLog.custom_http_exception_handler sc detail).2 =
      [{ level := .warning, message := HowToLog.strHTTPException sc detail,
         excInfo := some (.starletteHTTPException sc detail) }] := ⟨rfl, rfl⟩

/-- C6: for every GET request to `/error-404`, the handler raises an HTTP
exception with status code 404 and detail exactly "Not Found", and the
service responds with a 404 carrying that detail (rendered by the default
handler as JSON, after the custom handler logs the exception). -/
theorem error_404_surfaces_404_not_found (net : HowToLog.Net) (b : Option HowToLog.Json) :
    HowToLog.error_404.outcome =
      .raised (.starletteHTTPException 404 "Not Found") ∧
    HowToLog.handleApp net { method := "GET", path := "/error-404", body := b } =
      some { response := { status := 404,
                           body := .jsonBody (.obj [("detail", .str "Not Found")]),
                           headers := [] },
             logs := [{ level := .warning, message := "404: Not Found",
                        excInfo := some (.starletteHTTPException 404 "Not Found") }],
             calls := [] } := ⟨rfl, rfl⟩

/-- C7: for every GET request to `/error`, the handler raises a generic
(non-HTTP) exception, which neither registered handler intercepts (no log
record is emitted), and the service responds with the framework's default
500; the handler never returns a value of its own. -/
theorem error_route_surfaces_500 (net : HowToLog.Net) (b : Option HowToLog.Json) :
    HowToLog.error.outcome = .raised (.generic "This is a test error") ∧
    HowToLog.handleApp net { method := "GET", path := "/error", body := b } =
      some { response := HowToLog.internalServerErrorResponse,
             logs := [], calls := [] } := ⟨rfl, rfl⟩

/-- C8: for every GET request to `/clickable-log`, the handler emits exactly
one log record, at informational level, and the service responds 200 with
JSON body exactly the object with field "message" set to "Clickable log!". -/
theorem clickable_log_logs_and_returns_json (net : HowToLog.Net) (b : Option HowToLog.Json) :
    HowToLog.handleApp net { method := "GET", path := "/clickable-log", body := b } =
      some { response := { status := 200,
                           body := .jsonBody (.obj [("message", .str "Clickable log!")]),
                           headers := [] },
             logs := [{ level := .info,
                        message := "This will show with source code location and timing",
                        excInfo := none }],
             calls := [] } := rfl

/-- C9: on every network, each of the two httpx routes issues exactly one
outbound GET — to "http://12312312" with timeout 1 for
`/error-httpx-timeout`, to "http://localhost:11111" with timeout 1 for
`/error-httpx-connection-refused` — emits no log record (no local
exception handling), and whenever that call raises a transport exception,
the very same exception propagates out of the handler unmodified. -/
theorem httpx_routes_one_call_and_propagate (net : HowToLog.Net) :
    (HowToLog.error_httpx net).calls =
      [{ method := "GET", url := "http://12312312", timeout := 1 }] ∧
    (HowToLog.error_httpx net).logs = [] ∧
    (∀ e : HowToLog.Exc, net "http://12312312" 1 = .error e →
      (HowToLog.error_httpx net).outcome = .raised e) ∧
    (HowToLog.error_httpx_connection_refused net).calls =
      [{ method := "GET", url := "http://localhost:11111", timeout := 1 }] ∧
    (HowToLog.error_httpx_connection_refused net).logs = [] ∧
    (∀ e : HowToLog.Exc, net "http://localhost:11111" 1 = .error e →
      (HowToLog.error_httpx_connection_refused net).outcome = .raised e) := by
  refine ⟨?_, ?_, ?_, ?_, ?_, ?_⟩
  · unfold HowToLog.error_httpx HowToLog.httpx_get
    cases net "http://12312312" 1 <;> rfl
  · unfold HowToLog.error_httpx HowToLog.httpx_get
    cases net "http://12312312" 1 <;> rfl
  · intro e he
    unfold HowToLog.error_httpx HowToLog.httpx_get
    rw [he]
  · unfold HowToLog.error_httpx_connection_refused HowToLog.httpx_get
    cases net "http://localhost:11111" 1 <;> rfl
  · unfold HowToLog.error_httpx_connection_refused HowToLog.httpx_get
    cases net "http://localhost:11111" 1 <;> rfl
  · intro e he
    unfold HowToLog.error_httpx_connection_refused HowToLog.httpx_get
    rw [he]

/-- Witness for C9 on a network where every call times out. -/
theorem httpx_routes_one_call_and_propagate_witness :
    (HowToLog.error_httpx HowToLog.netAllTimeout).calls =
      [{ method := "GET", url := "http://12312312", timeout := 1 }] ∧
    (HowToLog.error_httpx HowToLog.netAllTimeout).outcome =
      .raised (.httpxTimeout "timed out") ∧
    (HowToLog.error_httpx_connection_refused HowToLog.netAllRefused).outcome =
      .raised (.httpxConnectError "connection refused") :=
  ⟨(httpx_routes_one_call_and_propagate HowToLog.netAllTimeout).1,
   (httpx_routes_one_call_and_propagate HowToLog.netAllTimeout).2.2.1
     (.httpxTimeout "timed out") rfl,
   (httpx_routes_one_call_and_propagate HowToLog.netAllRefused).2.2.2.2.2
     (.httpxConnectError "connection refused") rfl⟩

/-- C10: whenever the outbound GET of an httpx route succeeds, the handler
discards the upstream response entirely and returns None, which the service
renders as a 200 response with JSON body null — independent of the upstream
status, body and headers, none of which appear in the response. -/
theorem httpx_success_discards_upstream (net : HowToLog.Net) (r : HowToLog.HttpxResponse) :
    (net "http://12312312" 1 = .ok r →
      HowToLog.handleApp net
          { method := "GET", path := "/error-httpx-timeout", body := none } =
        some { response := { status := 200, body := .jsonBody .null, headers := [] },
               logs := [],
               calls := [{ method := "GET", url := "http://12312312", timeout := 1 }] }) ∧
    (net "http://localhost:11111" 1 = .ok r →
      HowToLog.handleApp net
          { method := "GET", path := "/error-httpx-connection-refused", body := none } =
        some { response := { status := 200, body := .jsonBody .null, headers := [] },
               logs := [],
               calls := [{ method := "GET", url := "http://localhost:11111",
                           timeout := 1 }] }) := by
  constructor
  · intro h
    simp [HowToLog.handleApp, HowToLog.routeHandler, HowToLog.error_httpx,
          HowToLog.httpx_get, h, HowToLog.JSONResponse]
  · intro h
    simp [HowToLog.handleApp, HowToLog.routeHandler,
          HowToLog.error_httpx_connection_refused,
          HowToLog.httpx_get, h, HowToLog.JSONResponse]

/-- Witness for C10 on a network where every call succeeds with a
nonempty upstream body that does not appear in the service response. -/
theorem httpx_success_discards_upstream_witness :
    HowToLog.handleApp HowToLog.netAllOk
        { method := "GET", path := "/error-httpx-timeout", body := none } =
      some { response := { status := 200, body := .jsonBody .null, headers := [] },
             logs := [],
             calls := [{ method := "GET", url := "http://12312312", timeout := 1 }] } :=
  (httpx_success_discards_upstream HowToLog.netAllOk
    { status := 200, body := "hello", headers := [] }).1 rfl
